import Mathlib

/-!
Shallow embedding of `src/main.go` (a Go WebSocket live-log-tail server) and
proofs about it.

The program: an HTTP handler `wsHandler` that, for path `/ws/uwsgi_log`,
upgrades to a WebSocket, starts a heartbeat goroutine (30 s ping ticker),
sends the file's pre-existing content as one initial text frame, starts a
tail of `/var/log/uwsgi/uwsgi.log` via `tail.TailFile` with
`Config{Follow: true, ReOpen: true, Poll: true, MustExist: false}`, and then
runs a `select` loop over the tail-line channel and the request context's
Done channel, writing each tailed line (plus a newline) as a text frame.

The embedding models the handler's control flow as pure functions over
explicit event traces: the select loop consumes a list of loop events in the
order they fire, the heartbeat goroutine consumes a list of its own events
(ticker fires with a write outcome, or a cancellation that it in fact
ignores, exactly as the Go code does), and the two are composed in
`runSession` with the same independence the two goroutines have in the code.
-/

namespace ToViewLog

/-- Kind of a WebSocket frame written to the connection:
`websocket.TextMessage` or `websocket.PingMessage` in the source. -/
inductive FrameKind
  | text
  | ping
deriving DecidableEq, Repr

/-- A frame written to the WebSocket connection. -/
structure Frame where
  kind : FrameKind
  data : String
deriving DecidableEq, Repr

/-- A text frame, as written by `conn.WriteMessage(websocket.TextMessage, ...)`. -/
def textFrame (s : String) : Frame := { kind := FrameKind.text, data := s }

/-- The heartbeat frame: `conn.WriteMessage(websocket.PingMessage, []byte{})`
— a protocol-level control frame with an empty payload. -/
def pingFrame : Frame := { kind := FrameKind.ping, data := "" }

/-- The heartbeat interval in seconds: `time.NewTicker(30 * time.Second)`. -/
def heartbeatInterval : Nat := 30

/-- An inbound HTTP request, with the parts of `*http.Request` the handler
looks at (`r.URL.Path`, the Origin header via `CheckOrigin`) plus whether the
WebSocket upgrade would succeed. -/
structure Request where
  path : String
  origin : String
  upgradeOk : Bool
deriving DecidableEq, Repr

/-- The upgrader's origin check from the source:
`CheckOrigin: func(r *http.Request) bool { return true }`. -/
def checkOrigin (_ : Request) : Bool := true

/-- The fixed log file path the endpoint serves: `/var/log/uwsgi/uwsgi.log`. -/
def logFilePath : String := "/var/log/uwsgi/uwsgi.log"

/-- The single configured WebSocket endpoint path. -/
def wsEndpoint : String := "/ws/uwsgi_log"

/-- Outcome of the accept phase of `wsHandler` (lines 24-42 of main.go):
the HTTP status written (404 on path mismatch, none once upgraded), whether
`upgrader.Upgrade` was attempted, whether a session was created, and the log
path the session is bound to. -/
structure HandlerOutcome where
  httpStatus : Option Nat
  upgradeAttempted : Bool
  sessionCreated : Bool
  sessionPath : Option String
deriving DecidableEq, Repr

/-- The accept phase of `wsHandler`: path check (`http.Error` with
`http.StatusNotFound` = 404 on mismatch, then `return`), then
`upgrader.Upgrade` (on failure: log and `return`, no session). -/
def wsHandlerAccept (req : Request) : HandlerOutcome :=
  if req.path = wsEndpoint then
    if req.upgradeOk then
      { httpStatus := none, upgradeAttempted := true,
        sessionCreated := true, sessionPath := some logFilePath }
    else
      { httpStatus := none, upgradeAttempted := true,
        sessionCreated := false, sessionPath := some logFilePath }
  else
    { httpStatus := some 404, upgradeAttempted := false,
      sessionCreated := false, sessionPath := none }

/-- An event the session's `select` loop can react to, in firing order:
a line arriving on `t.Lines` (its text, whether `line.Err != nil`, and
whether the `conn.WriteMessage` of the line succeeds), the `t.Lines`
channel being closed (`ok == false`), or `r.Context().Done()` firing. -/
inductive LoopEvent
  | line (text : String) (hasErr : Bool) (writeOk : Bool)
  | channelClosed
  | ctxDone
deriving DecidableEq, Repr

/-- Why the select loop returned. -/
inductive CloseCause
  | channelClosed
  | writeError
  | ctxDone
deriving DecidableEq, Repr

/-- The `select` loop of `wsHandler` (lines 83-102 of main.go), run over the
events in firing order. Returns the text frames successfully written and the
cause of return (`none` when the event trace ends with the loop still
waiting). A line with `line.Err != nil` is only logged; the line's text is
written regardless, as `line.Text + "\n"`. A failed write, a closed
channel, or context done each `return` immediately. -/
def sessionLoop : List LoopEvent → List Frame × Option CloseCause
  | [] => ([], none)
  | LoopEvent.channelClosed :: _ => ([], some CloseCause.channelClosed)
  | LoopEvent.ctxDone :: _ => ([], some CloseCause.ctxDone)
  | LoopEvent.line t _ w :: rest =>
      if w then
        let r := sessionLoop rest
        (textFrame (t ++ "\n") :: r.1, r.2)
      else
        ([], some CloseCause.writeError)

/-- An event observable by the heartbeat goroutine: its ticker firing (with
the outcome of the ping write), or the request context being cancelled.
The Go goroutine ranges only over `ticker.C`; it has no case for the
context, so a `cancel` event is simply not observed by it. -/
inductive HbEvent
  | tick (writeOk : Bool)
  | cancel
deriving DecidableEq, Repr

/-- The heartbeat goroutine of `wsHandler` (lines 45-54 of main.go), run
over the events in firing order: on each ticker fire it writes a ping frame
and `return`s on write failure; it ignores cancellation (the `for range
ticker.C` loop has no context case). Returns the ping frames successfully
written and whether the goroutine has exited. -/
def heartbeatStep : List HbEvent → List Frame × Bool
  | [] => ([], false)
  | HbEvent.cancel :: rest => heartbeatStep rest
  | HbEvent.tick true :: rest =>
      let r := heartbeatStep rest
      (pingFrame :: r.1, r.2)
  | HbEvent.tick false :: _ => ([], true)

/-- Input trace of one accepted session: the result of the initial
`os.ReadFile` (`none` = read error), whether the initial
`conn.WriteMessage` of the content succeeds, whether `tail.TailFile`
succeeds, and the event traces of the heartbeat goroutine and the select
loop. -/
structure SessionInput where
  initialRead : Option String
  initialWriteOk : Bool
  tailOpenOk : Bool
  hbEvents : List HbEvent
  loopEvents : List LoopEvent
deriving Repr

/-- Observable result of one accepted session. `handlerReturned` is true
when `wsHandler` has returned (at which point its `defer`red
`conn.Close()` and, when the tail was opened, `t.Cleanup()` have run). -/
structure SessionResult where
  initialFrame : Option String
  reachedStreaming : Bool
  loopFrames : List Frame
  closeCause : Option CloseCause
  pingFrames : List Frame
  heartbeatExited : Bool
  handlerReturned : Bool
  connReleased : Bool
  tailCursorReleased : Bool
deriving Repr

/-- The body of `wsHandler` after a successful upgrade (lines 40-102 of
main.go): start the heartbeat goroutine; `os.ReadFile` the log and, when it
succeeds and the content is non-empty, write it as one initial text frame
(a failure of the read or of this write is only logged); `tail.TailFile`
(on error: log and return — the deferred `conn.Close()` runs, no tail
cursor exists); otherwise enter the select loop. `conn.Close()` is
deferred at line 40 and `t.Cleanup()` at line 80, so both run exactly when
the handler returns. -/
def runSession (inp : SessionInput) : SessionResult :=
  let initialFrame :=
    match inp.initialRead with
    | some c => if 0 < c.length then (if inp.initialWriteOk then some c else none) else none
    | none => none
  let hb := heartbeatStep inp.hbEvents
  if inp.tailOpenOk then
    let lr := sessionLoop inp.loopEvents
    let returned := lr.2.isSome
    { initialFrame := initialFrame, reachedStreaming := true,
      loopFrames := lr.1, closeCause := lr.2,
      pingFrames := hb.1, heartbeatExited := hb.2,
      handlerReturned := returned,
      connReleased := returned, tailCursorReleased := returned }
  else
    { initialFrame := initialFrame, reachedStreaming := false,
      loopFrames := [], closeCause := none,
      pingFrames := hb.1, heartbeatExited := hb.2,
      handlerReturned := true,
      connReleased := true, tailCursorReleased := false }

/-- Splits a character stream at newlines, accumulating the current
line; a final unterminated fragment is held back (not emitted). -/
def completeLinesAux (acc : List Char) : List Char → List String
  | [] => []
  | c :: rest =>
      if c = '\n' then String.mk acc :: completeLinesAux [] rest
      else completeLinesAux (acc ++ [c]) rest

/-- The complete (newline-terminated) lines of a byte string, newline
stripped — what the tail library emits as `line.Text` while reading through
the string (it holds back a final unterminated fragment). -/
def completeLines (s : String) : List String := completeLinesAux [] s.toList

/-- The `tail.Config` the source passes to `tail.TailFile` (lines 70-75 of
main.go). The source sets no `Location` field, so it is `nil`. -/
structure TailConfig where
  follow : Bool
  reOpen : Bool
  poll : Bool
  mustExist : Bool
  locationSet : Bool
deriving DecidableEq, Repr

/-- The configuration literal from the source:
`tail.Config{Follow: true, ReOpen: true, Poll: true, MustExist: false}`. -/
def tailConfig : TailConfig :=
  { follow := true, reOpen := true, poll := true, mustExist := false,
    locationSet := false }

/-- The frames the client receives in a straight-line session (no write
failures, no cancellation) when the file holds `connectContent` at connect
time and `appended` is appended afterwards: the initial `os.ReadFile` frame
(sent only when non-empty), then one text frame `line.Text + "\n"` per line
the tailer emits.

The tailer's start offset is modelled from the nxadm/tail documented
default: the source's config leaves `Location` as `nil`, and a nil
`Location` makes the tailer read from the beginning of the file, so the
tailer emits every complete line of `connectContent ++ appended`, the
pre-existing ones included. -/
def sessionFrames (connectContent appended : String) : List String :=
  (if 0 < connectContent.length then [connectContent] else []) ++
    (completeLines (connectContent ++ appended)).map (fun l => l ++ "\n")

/-- A change to the tailed file visible to the tailer's poll loop: a line
appended, the file replaced at the same path (rotation), or the file
truncated in place. -/
inductive FileEvent
  | append (line : String)
  | rotate
  | truncate
deriving DecidableEq, Repr

/-- Modelled from the spec: the follow loop of the tail dependency
(`nxadm/tail`), whose code is not part of this repository. Per the spec's
rotation-tolerance contract, with `ReOpen` set the tailer detects a
replaced or truncated file and resumes reading from the new file/offset;
without `ReOpen` it stops following there and the `Lines` channel closes.
Returns the lines emitted on the channel and whether the channel closed. -/
def tailerRun (cfg : TailConfig) : List FileEvent → List String × Bool
  | [] => ([], false)
  | FileEvent.append l :: rest =>
      let r := tailerRun cfg rest
      (l :: r.1, r.2)
  | FileEvent.rotate :: rest =>
      if cfg.reOpen then tailerRun cfg rest else ([], true)
  | FileEvent.truncate :: rest =>
      if cfg.reOpen then tailerRun cfg rest else ([], true)

/-- All lines appended across a sequence of file events. -/
def appendedLines : List FileEvent → List String
  | [] => []
  | FileEvent.append l :: rest => l :: appendedLines rest
  | FileEvent.rotate :: rest => appendedLines rest
  | FileEvent.truncate :: rest => appendedLines rest

/-! ## Helper lemmas -/

/-- Every frame the heartbeat goroutine writes is a ping control frame. -/
theorem heartbeatStep_frames_ping (evs : List HbEvent) :
    ∀ f ∈ (heartbeatStep evs).1, f.kind = FrameKind.ping := by
  induction evs with
  | nil => simp [heartbeatStep]
  | cons e rest ih =>
      cases e with
      | cancel => simpa [heartbeatStep] using ih
      | tick w =>
          cases w with
          | true =>
              intro f hf
              simp only [heartbeatStep, List.mem_cons] at hf
              cases hf with
              | inl h => simp [h, pingFrame]
              | inr h => exact ih f h
          | false => simp [heartbeatStep]

/-- The heartbeat goroutine has exited exactly when some ping write
failed. -/
theorem heartbeatStep_exited_iff (evs : List HbEvent) :
    (heartbeatStep evs).2 = true ↔ HbEvent.tick false ∈ evs := by
  induction evs with
  | nil => simp [heartbeatStep]
  | cons e rest ih =>
      cases e with
      | cancel => simp [heartbeatStep, ih]
      | tick w => cases w <;> simp [heartbeatStep, ih]

/-- With every ping write succeeding, the heartbeat goroutine writes one
ping per tick and never exits. -/
theorem heartbeatStep_all_ok (n : Nat) :
    heartbeatStep (List.replicate n (HbEvent.tick true)) =
      (List.replicate n pingFrame, false) := by
  induction n with
  | zero => rfl
  | succ k ih => simp [List.replicate, heartbeatStep, ih]

/-- The select loop and the resources are unaffected by the heartbeat
goroutine: the two tasks share no state in the code (the goroutine only
writes to the connection and exits on its own). -/
theorem runSession_hb_indep (inp : SessionInput) (hb2 : List HbEvent) :
    (runSession { inp with hbEvents := hb2 }).closeCause =
      (runSession inp).closeCause ∧
    (runSession { inp with hbEvents := hb2 }).loopFrames =
      (runSession inp).loopFrames ∧
    (runSession { inp with hbEvents := hb2 }).handlerReturned =
      (runSession inp).handlerReturned := by
  by_cases ht : inp.tailOpenOk <;> simp [runSession, ht]

/-! ## Claims -/

/-- C1: the claim states that after the initial frame no pre-existing line
is re-delivered: the client should see exactly
`["line1\nline2\n", "line3\n"]`. The code diverges: `tail.TailFile` is
called with a `nil` `Location`, which (per the tail dependency) starts
reading at the beginning of the file, so the tailer re-delivers `line1` and
`line2` after the initial frame. At the claim's own concrete input the
delivered frames are `["line1\nline2\n", "line1\n", "line2\n", "line3\n"]`,
and already before the append the client receives re-delivered frames. -/
theorem claim_c1_code_divergence :
    sessionFrames "line1\nline2\n" "line3\n" =
      ["line1\nline2\n", "line1\n", "line2\n", "line3\n"] ∧
    sessionFrames "line1\nline2\n" "line3\n" ≠
      ["line1\nline2\n", "line3\n"] ∧
    sessionFrames "line1\nline2\n" "" =
      ["line1\nline2\n", "line1\n", "line2\n"] := by
  refine ⟨rfl, ?_, rfl⟩
  decide

/-- Concrete session trace refuting C2: the single ping write fails (the
heartbeat goroutine exits), yet the session is not closed — the loop is
still running and even writes a later line frame. -/
def inpC2 : SessionInput :=
  { initialRead := some "", initialWriteOk := true, tailOpenOk := true,
    hbEvents := [HbEvent.tick false],
    loopEvents := [LoopEvent.line "later" false true] }

/-- C2 is false on the code: in `inpC2` the heartbeat write fails and the
heartbeat goroutine exits, but the session does not close — no close cause,
the handler has not returned (so neither the tail cursor nor the connection
is released), and a tailed line is still written afterwards. -/
theorem claim_c2_counterexample :
    (runSession inpC2).heartbeatExited = true ∧
    (runSession inpC2).closeCause = none ∧
    (runSession inpC2).handlerReturned = false ∧
    (runSession inpC2).tailCursorReleased = false ∧
    (runSession inpC2).loopFrames = [textFrame "later\n"] :=
  ⟨rfl, rfl, rfl, rfl, rfl⟩

/-- C2 amended: a failed heartbeat write terminates only the heartbeat
goroutine (it exits exactly when some ping write fails); the session itself
is unaffected — its close cause, its frames and the release of its
resources are independent of the heartbeat outcomes — and it closes only on
its own events (line-write failure, channel closure, cancellation). -/
theorem claim_c2_amended (inp : SessionInput) (hb2 : List HbEvent) :
    ((runSession inp).heartbeatExited = true ↔
      HbEvent.tick false ∈ inp.hbEvents) ∧
    (runSession { inp with hbEvents := hb2 }).closeCause =
      (runSession inp).closeCause ∧
    (runSession { inp with hbEvents := hb2 }).loopFrames =
      (runSession inp).loopFrames ∧
    (runSession { inp with hbEvents := hb2 }).handlerReturned =
      (runSession inp).handlerReturned := by
  refine ⟨?_, runSession_hb_indep inp hb2⟩
  have h := heartbeatStep_exited_iff inp.hbEvents
  by_cases ht : inp.tailOpenOk <;> simpa [runSession, ht] using h

/-- Concrete session trace refuting C3: the request context is cancelled
(the loop sees `ctxDone`), and afterwards the heartbeat goroutine still
processes a ticker fire and writes a ping — it did not end on the
cancellation. -/
def inpC3 : SessionInput :=
  { initialRead := some "", initialWriteOk := true, tailOpenOk := true,
    hbEvents := [HbEvent.cancel, HbEvent.tick true],
    loopEvents := [LoopEvent.ctxDone] }

/-- C3 is false on the code as stated: in `inpC3` the cancellation signal
fires (the session closes with cause `ctxDone`), yet the heartbeat task has
not ended — it ignores the cancellation, stays running and writes one more
ping after the signal. -/
theorem claim_c3_counterexample :
    (runSession inpC3).closeCause = some CloseCause.ctxDone ∧
    (runSession inpC3).heartbeatExited = false ∧
    (runSession inpC3).pingFrames = [pingFrame] :=
  ⟨rfl, rfl, rfl⟩

/-- C3 amended: when the cancellation signal fires, the tail-wait ends
immediately (the loop returns at once, with no further frames); the
heartbeat task does NOT end immediately — it ignores the cancellation and
only terminates when a later ping write fails; and on every exit path of
the handler the connection handle is released, and the tail cursor too
whenever it was opened. -/
theorem claim_c3_amended (inp : SessionInput) (rest : List LoopEvent)
    (evs : List HbEvent) :
    sessionLoop (LoopEvent.ctxDone :: rest) = ([], some CloseCause.ctxDone) ∧
    heartbeatStep (HbEvent.cancel :: evs) = heartbeatStep evs ∧
    ((runSession inp).handlerReturned = true →
      (runSession inp).connReleased = true ∧
      (inp.tailOpenOk = true → (runSession inp).tailCursorReleased = true)) := by
  refine ⟨rfl, rfl, ?_⟩
  intro h
  by_cases ht : inp.tailOpenOk
  · simp only [runSession, ht, if_true] at h ⊢
    exact ⟨h, fun _ => h⟩
  · simp [runSession, ht]

/-- Witness for C3 amended at the concrete trace `inpC3`. -/
theorem claim_c3_witness :
    (runSession inpC3).connReleased = true ∧
    (runSession inpC3).tailCursorReleased = true :=
  let h := (claim_c3_amended inpC3 [] []).2.2 rfl
  ⟨h.1, h.2 rfl⟩

/-- C4: a request whose path is not `/ws/uwsgi_log` is answered with the
404 status, no upgrade is attempted, and no session is created. -/
theorem claim_c4 (req : Request) (h : req.path ≠ wsEndpoint) :
    wsHandlerAccept req =
      { httpStatus := some 404, upgradeAttempted := false,
        sessionCreated := false, sessionPath := none } := by
  simp [wsHandlerAccept, h]

/-- Witness for C4 at the root path. -/
theorem claim_c4_witness :
    wsHandlerAccept { path := "/", origin := "", upgradeOk := true } =
      { httpStatus := some 404, upgradeAttempted := false,
        sessionCreated := false, sessionPath := none } :=
  claim_c4 { path := "/", origin := "", upgradeOk := true } (by decide)

/-- C5: a failed initial read (`os.ReadFile` error) or a failed write of
the initial frame is not fatal: the session still reaches STREAMING — the
tailer is started and the select loop runs exactly as it otherwise
would. -/
theorem claim_c5 (inp : SessionInput)
    (_hfail : inp.initialRead = none ∨ inp.initialWriteOk = false)
    (ht : inp.tailOpenOk = true) :
    (runSession inp).reachedStreaming = true ∧
    (runSession inp).closeCause = (sessionLoop inp.loopEvents).2 ∧
    (runSession inp).loopFrames = (sessionLoop inp.loopEvents).1 := by
  simp [runSession, ht]

/-- Concrete session trace for C5: the initial read fails, the tail opens,
one line is streamed. -/
def inpC5 : SessionInput :=
  { initialRead := none, initialWriteOk := true, tailOpenOk := true,
    hbEvents := [], loopEvents := [LoopEvent.line "x" false true] }

/-- Witness for C5 at the concrete trace `inpC5`. -/
theorem claim_c5_witness :
    (runSession inpC5).reachedStreaming = true :=
  (claim_c5 inpC5 (Or.inl rfl) rfl).1

/-- C6: a tailed line carrying a read error (`line.Err != nil`) does not
close the session: the loop writes the line text (plus newline) as a text
frame and continues with the remaining events, and the error flag never
changes the loop behavior at all. -/
theorem claim_c6 (t : String) (e w : Bool) (rest : List LoopEvent) :
    sessionLoop (LoopEvent.line t e true :: rest) =
      (textFrame (t ++ "\n") :: (sessionLoop rest).1, (sessionLoop rest).2) ∧
    sessionLoop (LoopEvent.line t true w :: rest) =
      sessionLoop (LoopEvent.line t false w :: rest) := by
  constructor <;> simp [sessionLoop]

/-- C7: when the `t.Lines` channel reports closure, the session closes at
once: no frame is written by the loop, the close cause is recorded, the
handler returns and both resources are released — whatever events would
have followed. -/
theorem claim_c7 (rest : List LoopEvent) (inp : SessionInput)
    (h : inp.loopEvents = LoopEvent.channelClosed :: rest)
    (ht : inp.tailOpenOk = true) :
    (runSession inp).loopFrames = [] ∧
    (runSession inp).closeCause = some CloseCause.channelClosed ∧
    (runSession inp).handlerReturned = true ∧
    (runSession inp).connReleased = true ∧
    (runSession inp).tailCursorReleased = true := by
  simp [runSession, ht, h, sessionLoop]

/-- Concrete session trace for C7: the channel closes, and a (would-be)
line event after the closure is never delivered. -/
def inpC7 : SessionInput :=
  { initialRead := some "", initialWriteOk := true, tailOpenOk := true,
    hbEvents := [],
    loopEvents := [LoopEvent.channelClosed, LoopEvent.line "x" false true] }

/-- Witness for C7 at the concrete trace `inpC7`. -/
theorem claim_c7_witness :
    (runSession inpC7).loopFrames = [] ∧
    (runSession inpC7).closeCause = some CloseCause.channelClosed ∧
    (runSession inpC7).handlerReturned = true ∧
    (runSession inpC7).connReleased = true ∧
    (runSession inpC7).tailCursorReleased = true :=
  claim_c7 [LoopEvent.line "x" false true] inpC7 rfl rfl

/-- C8: the heartbeat fires on a fixed 30-second ticker and writes a
protocol-level ping control frame (empty payload, never a text frame); any
number of successfully written, unanswered pings leaves the goroutine
running (there is no pong mechanism — the goroutine reacts to nothing but
its own write outcomes), the goroutine exits exactly on a failed write,
and the session close cause is independent of the heartbeat entirely. -/
theorem claim_c8 :
    heartbeatInterval = 30 ∧
    pingFrame.kind = FrameKind.ping ∧
    (∀ evs : List HbEvent, ∀ f ∈ (heartbeatStep evs).1,
      f.kind = FrameKind.ping) ∧
    (∀ n : Nat, heartbeatStep (List.replicate n (HbEvent.tick true)) =
      (List.replicate n pingFrame, false)) ∧
    (∀ evs : List HbEvent,
      (heartbeatStep evs).2 = true ↔ HbEvent.tick false ∈ evs) ∧
    (∀ inp : SessionInput, ∀ hb2 : List HbEvent,
      (runSession { inp with hbEvents := hb2 }).closeCause =
        (runSession inp).closeCause) :=
  ⟨rfl, rfl, heartbeatStep_frames_ping, heartbeatStep_all_ok,
    heartbeatStep_exited_iff,
    fun inp hb2 => (runSession_hb_indep inp hb2).1⟩

/-- Witness for C8: three unanswered pings at concrete input. -/
theorem claim_c8_witness :
    heartbeatStep (List.replicate 3 (HbEvent.tick true)) =
      (List.replicate 3 pingFrame, false) ∧
    pingFrame ∈ (heartbeatStep [HbEvent.tick true]).1 ∧
    pingFrame.kind = FrameKind.ping :=
  ⟨claim_c8.2.2.2.1 3, by decide,
    claim_c8.2.2.1 [HbEvent.tick true] pingFrame (by decide)⟩

/-- C9: with the configuration the source passes (`ReOpen: true`), the
tailer never closes its channel on a rotation or truncation event and
still emits every line appended afterwards (and before): the session keeps
streaming across rotations. -/
theorem claim_c9 (evs : List FileEvent) :
    tailConfig.reOpen = true ∧
    tailerRun tailConfig evs = (appendedLines evs, false) := by
  refine ⟨rfl, ?_⟩
  induction evs with
  | nil => rfl
  | cons e rest ih =>
      cases e <;>
        simp [tailerRun, appendedLines, ih,
          show tailConfig.reOpen = true from rfl]

/-- C10: the upgrader's `CheckOrigin` accepts every request, whatever its
Origin header: the endpoint performs no origin validation. -/
theorem claim_c10 (req : Request) : checkOrigin req = true := rfl

end ToViewLog
